import Mathlib

/-!
Verification of the Gesprov proxy server (`src/server.js`).

The repository holds two near-duplicate versions of the server; the complete
one (the second document in the file, defining the `faturas` route, the
credential check in `authCycle` and the `token_type` field) is embedded here.

Modelling conventions:
* JavaScript values reachable from `JSON.parse` plus `undefined` are the
  inductive `JsVal`; JS truthiness is `truthy`; optional chaining
  `payload?.k` is `optGet`; `a || b` is `jsOr`.
* An upstream HTTP response is `HttpResponse` (status, raw body text, and
  the best-effort `JSON.parse` of that text, `none` when unparsable);
  `r.ok` is the fetch definition `200 ≤ status ≤ 299`.
* Network effects are oracles: `fetch : String → Option (Option String)`
  gives for each probed URL either `none` (the fetch threw) or
  `some h` with `h` the `set-cookie` header (`none` when absent);
  `tokenResp : String → HttpResponse` gives the token endpoint's response
  to the POST carrying a given cookie.  `authCycle` additionally returns
  the list of outbound calls it performed (`NetCall`), so that "no network
  call is attempted" is a statement about that trace.
* Route handlers are modelled from the point where the upstream response
  is classified (the auth/key/body-validation glue ahead of it is not
  claim-relevant): `clienteRespond`, `faturasRespond`, `authRoute`.
-/

namespace Gesprov

/-- JavaScript values: everything `JSON.parse` can produce, plus `undefined`
(the result of reading an absent property).  Numbers are modelled as
integers; no claim depends on float behaviour. -/
inductive JsVal where
  | undefined
  | null
  | bool (b : Bool)
  | num (n : Int)
  | str (s : String)
  | arr (elems : List JsVal)
  | obj (fields : List (String × JsVal))

/-- JS truthiness of a value. -/
def truthy : JsVal → Bool
  | .undefined => false
  | .null => false
  | .bool b => b
  | .num n => n != 0
  | .str s => s != ""
  | .arr _ => true
  | .obj _ => true

/-- Property access `v.k` on a JS value: `undefined` unless `v` is an object
with field `k`.  Parsed JSON objects have unique keys, so the first match
is the field. -/
def jsGet : JsVal → String → JsVal
  | .obj fields, k =>
    match fields.find? (fun p => p.1 == k) with
    | some p => p.2
    | none => .undefined
  | _, _ => .undefined

/-- Optional chaining `payload?.k` where `payload` is a parse result
(`none` = JS `null`). -/
def optGet : Option JsVal → String → JsVal
  | none, _ => .undefined
  | some v, k => jsGet v k

/-- JS `a || b`: `a` when truthy, else `b`. -/
def jsOr (a b : JsVal) : JsVal := if truthy a then a else b

/-- JS `payload.erro === "usuario_invalido"` (strict equality against a
string literal). -/
def isUsuarioInvalido : JsVal → Bool
  | .str s => s == "usuario_invalido"
  | _ => false

/-- An upstream HTTP response as the code observes it: transport status,
raw body text, and the best-effort `JSON.parse` of the text (`none` when
the body is not valid JSON, i.e. the JS `payload` stays `null`). -/
structure HttpResponse where
  status : Nat
  text : String
  payload : Option JsVal

/-- Field `r.ok` of the fetch API: status in the 2xx range. -/
def HttpResponse.ok (r : HttpResponse) : Bool :=
  200 ≤ r.status && r.status ≤ 299

/-- The `raw` diagnostic attached to failures: `payload ?? text`
(the parsed body when the parse succeeded, else the raw text). -/
inductive Raw where
  | json (v : JsVal)
  | text (s : String)

/-- Expression `payload ?? text`. -/
def rawOf (payload : Option JsVal) (text : String) : Raw :=
  match payload with
  | some v => .json v
  | none => .text text

/-- Result of `getToken` (server.js lines 201-233). -/
inductive TokenResult where
  | failure (status : Nat) (raw : Raw)
  | success (access_token token_type : JsVal)

/-- Function `getToken`, classification of the token endpoint's response
(server.js lines 217-232): transport failure first, then the business
error marker (forced 401), then the token extraction chain
`payload?.data?.access_token || payload?.access_token || payload?.token_acesso`
(502 when it yields nothing truthy), with
`token_type = payload?.data?.token_type || payload?.token_type || "Bearer"`. -/
def getToken (r : HttpResponse) : TokenResult :=
  let payload := r.payload
  if !r.ok then .failure r.status (rawOf payload r.text)
  else if truthy (optGet payload "erro") then .failure 401 (.json (payload.getD .null))
  else
    let access_token :=
      jsOr (jsOr (jsGet (optGet payload "data") "access_token")
        (optGet payload "access_token")) (optGet payload "token_acesso")
    let token_type :=
      jsOr (jsOr (jsGet (optGet payload "data") "token_type")
        (optGet payload "token_type")) (.str "Bearer")
    if !truthy access_token then .failure 502 (rawOf payload r.text)
    else .success access_token token_type

/-- Case-insensitive character comparison, for the `/i` regex flag. -/
def charCI (a b : Char) : Bool := a.toLower == b.toLower

/-- Whether `pat` occurs case-insensitively at the head of `l`. -/
def headMatchCI : List Char → List Char → Bool
  | [], _ => true
  | _ :: _, [] => false
  | a :: as, b :: bs => charCI a b && headMatchCI as bs

/-- The literal part of the regex `/PHPSESSID=[^;]+/i`. -/
def sessionKey : List Char := "PHPSESSID=".toList

/-- Scan of `setCookie.match(/PHPSESSID=[^;]+/i)`: first position where
`PHPSESSID=` matches case-insensitively followed by at least one
non-`;` character; the match `m[0]` keeps the original casing and runs
to the first `;` (or the end). -/
def findSession : List Char → Option (List Char)
  | [] => none
  | c :: cs =>
    if headMatchCI sessionKey (c :: cs) then
      let val := ((c :: cs).drop sessionKey.length).takeWhile (fun ch => ch ≠ ';')
      if val.isEmpty then findSession cs
      else some ((c :: cs).take sessionKey.length ++ val)
    else findSession cs

/-- Expression `setCookie.match(/PHPSESSID=[^;]+/i)?.[0]` as a string function. -/
def matchPHPSESSID (s : String) : Option String :=
  (findSession s.data).map (fun l => String.mk l)

/-- Cookie extracted from one probe attempt: `none` when the fetch threw
(the `catch {}`), when there is no `set-cookie` header, or when the
header has no `PHPSESSID=` match. -/
def probeCookie (fetched : Option (Option String)) : Option String :=
  match fetched with
  | none => none
  | some none => none
  | some (some h) => matchPHPSESSID h

/-- The three candidate URLs of `openSession` (server.js line 186). -/
def sessionTries (baseUrl : String) : List String :=
  [baseUrl ++ "/", baseUrl ++ "/ges-api/", baseUrl ++ "/ges-api/v1/"]

/-- Loop body of `openSession`: try each URL in order, first cookie wins
(short-circuit); also records the URLs actually fetched. -/
def openSessionGo (fetch : String → Option (Option String)) :
    List String → Option String × List String
  | [] => (none, [])
  | u :: rest =>
    match probeCookie (fetch u) with
    | some c => (some c, [u])
    | none =>
      let r := openSessionGo fetch rest
      (r.1, u :: r.2)

/-- Function `openSession` (server.js lines 185-199): probe the three candidate
URLs, return the first `PHPSESSID=...` match (or `null`), together with
the list of URLs probed. -/
def openSession (baseUrl : String) (fetch : String → Option (Option String)) :
    Option String × List String :=
  openSessionGo fetch (sessionTries baseUrl)

/-- Process environment slice read by the server (strings or unset). -/
structure Env where
  gesprovUrl : Option String
  clientId : Option String
  clientSecret : Option String
  phpsessid : Option String

/-- Truthiness of a string-or-undefined environment value. -/
def optTruthy (o : Option String) : Bool :=
  match o with
  | none => false
  | some s => s != ""

/-- Expression `(GESPROV_URL || "").replace(/\/$/, "")`: drop one trailing slash. -/
def stripTrailingSlash (s : String) : String :=
  match s.data.getLast? with
  | some '/' => String.mk s.data.dropLast
  | _ => s

/-- One outbound network call performed during an auth cycle. -/
inductive NetCall where
  | probe (url : String)
  | tokenPost (url : String) (cookie : String)

/-- Result of `authCycle` (server.js lines 235-260). -/
inductive AuthResult where
  | failure (status : Nat) (error : String) (raw : Option Raw)
  | success (cookie : String) (token token_type : JsVal)

/-- Function `authCycle` (server.js lines 235-260): validate `GESPROV_URL` and the
client credentials (500 without any network call when missing), probe for
a session cookie, fall back to the fixed `GESPROV_PHPSESSID` cookie
(`sid || fixed`), fail 502 when neither is available, else run the token
exchange with the chosen cookie and propagate its failure
(status + raw) or return the authenticated triple.  The second component
is the trace of outbound calls. -/
def authCycle (env : Env) (fetch : String → Option (Option String))
    (tokenResp : String → HttpResponse) : AuthResult × List NetCall :=
  let baseUrl := stripTrailingSlash (env.gesprovUrl.getD "")
  if baseUrl = "" then (.failure 500 "GESPROV_URL not set" none, [])
  else if !optTruthy env.clientId || !optTruthy env.clientSecret then
    (.failure 500 "GESPROV_CLIENT_ID / GESPROV_CLIENT_SECRET not set" none, [])
  else
    let probed := openSession baseUrl fetch
    let fixed : Option String :=
      match env.phpsessid with
      | some s => if s ≠ "" then some ("PHPSESSID=" ++ s) else none
      | none => none
    match (if optTruthy probed.1 then probed.1 else fixed) with
    | none =>
      (.failure 502 "Could not obtain PHPSESSID (session required)" none,
        probed.2.map .probe)
    | some ck =>
      if ck = "" then
        (.failure 502 "Could not obtain PHPSESSID (session required)" none,
          probed.2.map .probe)
      else
        let calls := probed.2.map NetCall.probe ++
          [.tokenPost (baseUrl ++ "/ges-api/v1/token") ck]
        match getToken (tokenResp ck) with
        | .failure st raw => (.failure st "Token failed" (some raw), calls)
        | .success t tt => (.success ck t tt, calls)

/-- A proxy response sent to the caller: HTTP status and JSON body. -/
structure ProxyResponse where
  status : Nat
  body : JsVal

/-- Expression `text.slice(0, n)` on a JS string. -/
def sliceTo (s : String) (n : Nat) : String := String.mk (s.data.take n)

/-- Expression `auth.status || 500` on the route side. -/
def jsOrNat (a b : Nat) : Nat := if a ≠ 0 then a else b

/-- JSON body serialized for a failed auth result: `{ok:false, status,
error}` plus `raw` when the failure carries one. -/
def authFailureJs (status : Nat) (error : String) (raw : Option Raw) : JsVal :=
  .obj ([("ok", .bool false), ("status", .num status), ("error", .str error)] ++
    (match raw with
     | some (.json v) => [("raw", v)]
     | some (.text s) => [("raw", .str s)]
     | none => []))

/-- Handler of `POST /gesprov/auth` (server.js lines 296-303), after the key
check: `res.status(auth.status || 500).json(auth)` on failure, else
`res.json({ok:true, cookie, token, token_type})`. -/
def authRoute (a : AuthResult) : ProxyResponse :=
  match a with
  | .failure st err raw => { status := jsOrNat st 500, body := authFailureJs st err raw }
  | .success ck t tt =>
    { status := 200
      body := .obj [("ok", .bool true), ("cookie", .str ck),
        ("token", t), ("token_type", tt)] }

/-- Classification of the upstream response by the `POST /gesprov/cliente`
handler (server.js lines 328-337): business error marker first
(401 for `usuario_invalido`, else 400, echoing the payload), then
transport failure flattened to 502 with the raw text truncated to 1200,
else 200 with `payload ?? {raw: text}`. -/
def clienteRespond (r : HttpResponse) : ProxyResponse :=
  let payload := r.payload
  if truthy (optGet payload "erro") then
    { status := if isUsuarioInvalido (optGet payload "erro") then 401 else 400
      body := payload.getD .null }
  else if !r.ok then
    { status := 502
      body := .obj [("error", .str ("Gesprov error " ++ toString r.status)),
        ("raw", .str (sliceTo r.text 1200))] }
  else
    { status := 200
      body := match payload with
        | some p => p
        | none => .obj [("raw", .str r.text)] }

/-- Classification of the upstream response by the `POST /gesprov/faturas`
handler (server.js lines 371-387): business error marker first
(401/400 echoing the payload), then transport failure forwarding the
upstream status with `details = payload ?? {raw: text.slice(0,1200)}`,
else 200 with `{success:true, faturas: payload?.titulos ||
payload?.faturas || payload?.data || payload}`. -/
def faturasRespond (r : HttpResponse) : ProxyResponse :=
  let payload := r.payload
  if truthy (optGet payload "erro") then
    { status := if isUsuarioInvalido (optGet payload "erro") then 401 else 400
      body := payload.getD .null }
  else if !r.ok then
    { status := r.status
      body := .obj [("error", .str "Erro ao buscar faturas no Gesprov."),
        ("details", match payload with
          | some p => p
          | none => .obj [("raw", .str (sliceTo r.text 1200))])] }
  else
    { status := 200
      body := .obj [("success", .bool true),
        ("faturas", jsOr (jsOr (jsOr (optGet payload "titulos")
          (optGet payload "faturas")) (optGet payload "data"))
          (payload.getD .null))] }

/-- Ordered token-extraction candidates of the fallback chain, in the
source's priority order. -/
def tokenCandidates (payload : Option JsVal) : List JsVal :=
  [jsGet (optGet payload "data") "access_token",
   optGet payload "access_token",
   optGet payload "token_acesso"]

/-- Ordered token-type candidates, in the source's priority order. -/
def typeCandidates (payload : Option JsVal) : List JsVal :=
  [jsGet (optGet payload "data") "token_type", optGet payload "token_type"]

/-! ### Helper lemmas -/

/-- A successful `PHPSESSID` scan never returns the empty character list:
the match always contains the ten key characters and at least one value
character. -/
lemma findSession_ne_nil : ∀ l m, findSession l = some m → m ≠ []
  | [], m, h => by simp [findSession] at h
  | c :: cs, m, h => by
    simp only [findSession] at h
    split at h
    · split at h
      · exact findSession_ne_nil cs m h
      · intro hm
        rw [hm] at h
        have h2 := Option.some.inj h
        rcases List.append_eq_nil.mp h2 with ⟨ht, -⟩
        rcases List.take_eq_nil_iff.mp ht with h0 | h0
        · have hlen : sessionKey.length = 10 := rfl
          rw [hlen] at h0
          omega
        · simp at h0
    · exact findSession_ne_nil cs m h

/-- A matched session cookie is a non-empty string. -/
lemma matchPHPSESSID_ne_empty {s : String} {c : String}
    (h : matchPHPSESSID s = some c) : c ≠ "" := by
  rw [matchPHPSESSID] at h
  cases hf : findSession s.data with
  | none => rw [hf] at h; simp at h
  | some m =>
    rw [hf] at h
    have h2 : String.mk m = c := Option.some.inj h
    intro hc
    apply findSession_ne_nil s.data m hf
    have h3 : String.mk m = "" := by rw [h2, hc]
    have h4 : m = ("" : String).data := congrArg String.data h3
    simpa using h4

/-- A cookie extracted from a probe attempt is non-empty. -/
lemma probeCookie_ne_empty {f : Option (Option String)} {c : String}
    (h : probeCookie f = some c) : c ≠ "" := by
  rcases f with - | hdr
  · simp [probeCookie] at h
  · rcases hdr with - | s
    · simp [probeCookie] at h
    · exact matchPHPSESSID_ne_empty h

/-- A cookie yielded by the probe loop is non-empty. -/
lemma openSessionGo_ne_empty (fetch : String → Option (Option String)) :
    ∀ (urls : List String) (c : String),
      (openSessionGo fetch urls).1 = some c → c ≠ ""
  | [], c, h => by simp [openSessionGo] at h
  | u :: rest, c, h => by
    rw [openSessionGo] at h
    cases hp : probeCookie (fetch u) with
    | some c0 =>
      rw [hp] at h
      have hc : c0 = c := Option.some.inj h
      exact hc ▸ probeCookie_ne_empty hp
    | none =>
      rw [hp] at h
      exact openSessionGo_ne_empty fetch rest c h

/-- A cookie yielded by `openSession` is non-empty. -/
lemma openSession_ne_empty {baseUrl : String}
    {fetch : String → Option (Option String)} {c : String}
    (h : (openSession baseUrl fetch).1 = some c) : c ≠ "" :=
  openSessionGo_ne_empty fetch _ c h

/-- When every probe attempt yields no cookie, the probe loop returns
`null` after fetching every candidate URL. -/
lemma openSessionGo_all_none (fetch : String → Option (Option String)) :
    ∀ (urls : List String), (∀ u ∈ urls, probeCookie (fetch u) = none) →
      openSessionGo fetch urls = (none, urls)
  | [], _ => rfl
  | u :: rest, h => by
    have h1 : probeCookie (fetch u) = none := h u (by simp)
    have h2 := openSessionGo_all_none fetch rest (fun v hv => h v (by simp [hv]))
    simp [openSessionGo, h1, h2]

/-- The three-way `||` chain is falsy exactly when no candidate is truthy. -/
lemma jsOr3_none {a b c : JsVal} (h : [a, b, c].find? truthy = none) :
    truthy (jsOr (jsOr a b) c) = false := by
  cases ha : truthy a <;> cases hb : truthy b <;> cases hc : truthy c <;>
    simp [jsOr, ha, hb, hc] at h ⊢

/-- The three-way `||` chain returns the first truthy candidate. -/
lemma jsOr3_some {a b c v : JsVal} (h : [a, b, c].find? truthy = some v) :
    jsOr (jsOr a b) c = v ∧ truthy v = true := by
  cases ha : truthy a <;> cases hb : truthy b <;> cases hc : truthy c <;>
    simp [jsOr, ha, hb, hc] at h ⊢ <;> subst h <;> simp [ha, hb, hc]

/-- The two-way `||` chain with a literal default equals "first truthy
candidate, else the default". -/
lemma jsOr2_getD (d e : JsVal) :
    jsOr (jsOr d e) (.str "Bearer") = ([d, e].find? truthy).getD (.str "Bearer") := by
  cases hd : truthy d <;> cases he : truthy e <;> simp [jsOr, hd, he]

/-- A truncated slice never exceeds the requested length. -/
lemma sliceTo_length_le (s : String) (n : Nat) : (sliceTo s n).length ≤ n := by
  rw [sliceTo, String.length]
  simp

/-! ### Claims -/

/-- Token-exchange response carrying the business error marker while the
transport status is 500 (non-2xx). -/
def respC1 : HttpResponse :=
  ⟨500, "erro-body", some (.obj [("erro", .str "usuario_invalido")])⟩

/-- C1 (counterexample): a token-exchange response whose parsed body
carries the `erro` business error marker but whose transport status is
500 makes `getToken` return the transport status 500, not 401 — the
`!r.ok` check precedes the `payload?.erro` check, so the claimed
"regardless of the HTTP transport status" fails. -/
theorem claim_C1_cex :
    truthy (optGet respC1.payload "erro") = true ∧ respC1.ok = false ∧
      getToken respC1 = .failure 500 (.json (.obj [("erro", .str "usuario_invalido")])) ∧
      (500 : Nat) ≠ 401 :=
  ⟨rfl, rfl, rfl, by decide⟩

/-- C1 (amended): for a token-exchange response whose parsed body carries
a truthy `erro` business error marker, `getToken` returns a failure with
status 401 carrying the parsed body when the transport status is 2xx;
when the transport status is non-2xx it returns the transport status
(with `payload ?? text` as raw detail) instead. -/
theorem claim_C1 (r : HttpResponse)
    (herr : truthy (optGet r.payload "erro") = true) :
    (r.ok = true → getToken r = .failure 401 (.json (r.payload.getD .null))) ∧
    (r.ok = false → getToken r = .failure r.status (rawOf r.payload r.text)) := by
  constructor
  · intro hok; simp [getToken, hok, herr]
  · intro hok; simp [getToken, hok]

/-- Token-exchange response with 2xx status and an `erro` marker. -/
def respC1w : HttpResponse := ⟨200, "erro-body", some (.obj [("erro", .str "bad")])⟩

/-- C1 witness: on a concrete 2xx response with an `erro` marker,
`getToken` yields the forced 401. -/
theorem claim_C1_witness :
    truthy (optGet respC1w.payload "erro") = true ∧
      getToken respC1w = .failure 401 (.json (.obj [("erro", .str "bad")])) :=
  ⟨rfl, (claim_C1 respC1w rfl).1 rfl⟩

/-- C5: on a 2xx token-exchange response without a business error marker,
the access token is the first truthy candidate of the ordered shape list
`payload?.data?.access_token`, `payload?.access_token`,
`payload?.token_acesso` (first match wins); when no candidate is truthy
the result is a 502 failure carrying `payload ?? text`; otherwise the
result is a success whose `token_type` is the first truthy of
`payload?.data?.token_type`, `payload?.token_type`, defaulting to
`"Bearer"`. -/
theorem claim_C5 (r : HttpResponse) (hok : r.ok = true)
    (herr : truthy (optGet r.payload "erro") = false) :
    ((tokenCandidates r.payload).find? truthy = none →
      getToken r = .failure 502 (rawOf r.payload r.text)) ∧
    (∀ v, (tokenCandidates r.payload).find? truthy = some v →
      getToken r = .success v
        (((typeCandidates r.payload).find? truthy).getD (.str "Bearer"))) := by
  constructor
  · intro hn
    have h1 := jsOr3_none (by simpa [tokenCandidates] using hn)
    simp [getToken, hok, herr, h1]
  · intro v hv
    obtain ⟨he, ht⟩ := jsOr3_some (by simpa [tokenCandidates] using hv)
    simp [getToken, hok, herr, he, ht, jsOr2_getD, typeCandidates]

/-- Token-exchange response answering through the third response shape. -/
def respC5w : HttpResponse := ⟨200, "", some (.obj [("token_acesso", .str "T")])⟩

/-- C5 witness: a response whose only token field is `token_acesso`
yields a success with that token and the default `"Bearer"` type. -/
theorem claim_C5_witness :
    respC5w.ok = true ∧ truthy (optGet respC5w.payload "erro") = false ∧
      (tokenCandidates respC5w.payload).find? truthy = some (.str "T") ∧
      getToken respC5w = .success (.str "T") (.str "Bearer") :=
  ⟨rfl, rfl, rfl, (claim_C5 respC5w rfl rfl).2 (.str "T") rfl⟩

/-- C6: on an upstream business-call response with non-2xx transport
status and no business error marker, the cliente route flattens the
status to 502 while the faturas route forwards the upstream status
as-is. -/
theorem claim_C6 (r : HttpResponse)
    (herr : truthy (optGet r.payload "erro") = false) (hok : r.ok = false) :
    (clienteRespond r).status = 502 ∧ (faturasRespond r).status = r.status := by
  simp [clienteRespond, faturasRespond, herr, hok]

/-- A 503 upstream response with an unparsable body. -/
def respC6w : HttpResponse := ⟨503, "upstream down", none⟩

/-- C6 witness: a concrete 503 upstream response yields 502 from the
cliente route and 503 from the faturas route. -/
theorem claim_C6_witness :
    truthy (optGet respC6w.payload "erro") = false ∧ respC6w.ok = false ∧
      (clienteRespond respC6w).status = 502 ∧ (faturasRespond respC6w).status = 503 :=
  ⟨rfl, rfl, claim_C6 respC6w rfl rfl⟩

/-- C9: in both business routes the business-error check takes priority
over the transport check: whenever the parsed body carries a truthy
`erro` marker, the route answers 401 for `usuario_invalido` and 400
otherwise, echoing the payload — with no hypothesis on the transport
status, so also for non-2xx responses.  The token exchange has the
opposite order: on non-2xx it answers with the transport status even
when the marker is present. -/
theorem claim_C9 (r : HttpResponse)
    (herr : truthy (optGet r.payload "erro") = true) :
    clienteRespond r =
      ⟨if isUsuarioInvalido (optGet r.payload "erro") then 401 else 400,
        r.payload.getD .null⟩ ∧
    faturasRespond r =
      ⟨if isUsuarioInvalido (optGet r.payload "erro") then 401 else 400,
        r.payload.getD .null⟩ ∧
    (r.ok = false → getToken r = .failure r.status (rawOf r.payload r.text)) := by
  refine ⟨?_, ?_, ?_⟩
  · simp [clienteRespond, herr]
  · simp [faturasRespond, herr]
  · intro hok; simp [getToken, hok]

/-- A non-2xx upstream response carrying `erro: usuario_invalido`. -/
def respC9w : HttpResponse :=
  ⟨500, "erro-body", some (.obj [("erro", .str "usuario_invalido")])⟩

/-- C9 witness: on a concrete 500 upstream response with the
`usuario_invalido` marker, both business routes answer 401 echoing the
payload, while `getToken` on the same response would answer 500. -/
theorem claim_C9_witness :
    truthy (optGet respC9w.payload "erro") = true ∧
      clienteRespond respC9w = ⟨401, .obj [("erro", .str "usuario_invalido")]⟩ ∧
      faturasRespond respC9w = ⟨401, .obj [("erro", .str "usuario_invalido")]⟩ ∧
      (respC9w.ok = false →
        getToken respC9w = .failure 500 (.json (.obj [("erro", .str "usuario_invalido")]))) :=
  ⟨rfl, claim_C9 respC9w rfl⟩

/-- C10: on a 2xx upstream business-call response whose body is not
parseable as JSON, the cliente route answers 200 with `{raw: text}` and
the faturas route answers 200 with `{success: true, faturas: null}`. -/
theorem claim_C10 (r : HttpResponse) (hok : r.ok = true) (hp : r.payload = none) :
    clienteRespond r = ⟨200, .obj [("raw", .str r.text)]⟩ ∧
    faturasRespond r = ⟨200, .obj [("success", .bool true), ("faturas", .null)]⟩ := by
  simp [clienteRespond, faturasRespond, hok, hp, optGet, truthy, jsOr]

/-- A 2xx upstream response with a non-JSON body. -/
def respC10w : HttpResponse := ⟨200, "plain text", none⟩

/-- C10 witness: a concrete 2xx non-JSON upstream response yields the two
stated 200 bodies. -/
theorem claim_C10_witness :
    respC10w.ok = true ∧ respC10w.payload = none ∧
      clienteRespond respC10w = ⟨200, .obj [("raw", .str "plain text")]⟩ ∧
      faturasRespond respC10w = ⟨200, .obj [("success", .bool true), ("faturas", .null)]⟩ :=
  ⟨rfl, rfl, claim_C10 respC10w rfl rfl⟩

/-- C2: when the upstream base URL or either client credential is absent
from the environment, `authCycle` fails with status 500 and its outbound
call trace is empty — no session probe and no token exchange happens. -/
theorem claim_C2 (env : Env) (fetch : String → Option (Option String))
    (tokenResp : String → HttpResponse)
    (h : env.gesprovUrl = none ∨ env.clientId = none ∨ env.clientSecret = none) :
    ∃ msg, authCycle env fetch tokenResp = (.failure 500 msg none, []) := by
  by_cases hb : stripTrailingSlash (env.gesprovUrl.getD "") = ""
  · exact ⟨"GESPROV_URL not set", by simp [authCycle, hb]⟩
  · rcases h with h | h | h
    · exact absurd (by simp [h, stripTrailingSlash]) hb
    · exact ⟨"GESPROV_CLIENT_ID / GESPROV_CLIENT_SECRET not set",
        by simp [authCycle, hb, h, optTruthy]⟩
    · exact ⟨"GESPROV_CLIENT_ID / GESPROV_CLIENT_SECRET not set",
        by simp [authCycle, hb, h, optTruthy]⟩

/-- Environment with no base URL configured. -/
def envC2w : Env := ⟨none, some "id", some "secret", none⟩

/-- C2 witness: with `GESPROV_URL` unset, `authCycle` fails 500 with an
empty call trace. -/
theorem claim_C2_witness :
    envC2w.gesprovUrl = none ∧
      ∃ msg, authCycle envC2w (fun _ => none) (fun _ => ⟨200, "", none⟩) =
        (.failure 500 msg none, []) :=
  ⟨rfl, claim_C2 envC2w (fun _ => none) (fun _ => ⟨200, "", none⟩) (Or.inl rfl)⟩

/-- C3: with a configured base URL and credentials, when every session
probe yields no cookie and no fallback `GESPROV_PHPSESSID` is configured,
`authCycle` fails with status 502 and its call trace holds only the
three probe GETs — the token exchange is never invoked. -/
theorem claim_C3 (env : Env) (fetch : String → Option (Option String))
    (tokenResp : String → HttpResponse)
    (hurl : stripTrailingSlash (env.gesprovUrl.getD "") ≠ "")
    (hid : optTruthy env.clientId = true)
    (hsec : optTruthy env.clientSecret = true)
    (hprobe : ∀ u ∈ sessionTries (stripTrailingSlash (env.gesprovUrl.getD "")),
      probeCookie (fetch u) = none)
    (hfb : env.phpsessid = none) :
    authCycle env fetch tokenResp =
      (.failure 502 "Could not obtain PHPSESSID (session required)" none,
        (sessionTries (stripTrailingSlash (env.gesprovUrl.getD ""))).map .probe) := by
  have hgo := openSessionGo_all_none fetch _ hprobe
  have hnone : optTruthy (none : Option String) = false := rfl
  simp [authCycle, openSession, hurl, hid, hsec, hfb, hgo, hnone]

/-- Environment whose upstream never answers with a cookie. -/
def envC3w : Env := ⟨some "http://u", some "id", some "secret", none⟩

/-- C3 witness: all three probes throw and no fallback is configured;
the cycle fails 502 after exactly the three probe calls. -/
theorem claim_C3_witness :
    envC3w.phpsessid = none ∧
      authCycle envC3w (fun _ => none) (fun _ => ⟨200, "", none⟩) =
        (.failure 502 "Could not obtain PHPSESSID (session required)" none,
          [.probe "http://u/", .probe "http://u/ges-api/", .probe "http://u/ges-api/v1/"]) :=
  ⟨rfl, claim_C3 envC3w (fun _ => none) (fun _ => ⟨200, "", none⟩)
    (by decide) rfl rfl (fun u _ => rfl) rfl⟩

/-- C4: with a configured base URL and credentials, when the session
probe yields a cookie `c`, `authCycle`'s token exchange is performed with
that probed cookie, and the whole outcome — the probe calls, one token
POST carrying `c`, and the result built from `getToken` on that call's
response — does not mention the configured fallback cookie at all
(`env.phpsessid` is absent from the right-hand side), so the fallback is
never used. -/
theorem claim_C4 (env : Env) (fetch : String → Option (Option String))
    (tokenResp : String → HttpResponse) (c : String)
    (hurl : stripTrailingSlash (env.gesprovUrl.getD "") ≠ "")
    (hid : optTruthy env.clientId = true)
    (hsec : optTruthy env.clientSecret = true)
    (hc : (openSession (stripTrailingSlash (env.gesprovUrl.getD "")) fetch).1 = some c) :
    authCycle env fetch tokenResp =
      ((match getToken (tokenResp c) with
        | .failure st raw => .failure st "Token failed" (some raw)
        | .success t tt => AuthResult.success c t tt),
       (openSession (stripTrailingSlash (env.gesprovUrl.getD "")) fetch).2.map .probe ++
         [.tokenPost (stripTrailingSlash (env.gesprovUrl.getD "") ++ "/ges-api/v1/token") c]) := by
  have hne : c ≠ "" := openSession_ne_empty hc
  have hto : optTruthy (some c) = true := by simp [optTruthy, hne]
  simp [authCycle, hurl, hid, hsec, hc, hto, hne]
  cases getToken (tokenResp c) <;> rfl

/-- Environment with a configured fallback cookie that must stay
unused. -/
def envC4w : Env := ⟨some "http://u", some "id", some "secret", some "FIXED"⟩

/-- Probe oracle answering a live session cookie on the first URL. -/
def fetchC4w : String → Option (Option String) := fun u =>
  if u = "http://u/" then some (some "PHPSESSID=live") else none

/-- Token oracle that only honours the live probed cookie. -/
def tokC4w : String → HttpResponse := fun ck =>
  if ck = "PHPSESSID=live" then ⟨200, "", some (.obj [("access_token", .str "T")])⟩
  else ⟨200, "", none⟩

/-- C4 witness: although a fallback cookie `FIXED` is configured, the
cycle authenticates with the probed cookie `PHPSESSID=live` and succeeds. -/
theorem claim_C4_witness :
    envC4w.phpsessid = some "FIXED" ∧
      (openSession "http://u" fetchC4w).1 = some "PHPSESSID=live" ∧
      authCycle envC4w fetchC4w tokC4w =
        (.success "PHPSESSID=live" (.str "T") (.str "Bearer"),
          [.probe "http://u/", .tokenPost "http://u/ges-api/v1/token" "PHPSESSID=live"]) :=
  ⟨rfl, rfl, claim_C4 envC4w fetchC4w tokC4w "PHPSESSID=live" (by decide) rfl rfl rfl⟩

/-- A raw upstream body of 1300 characters, longer than the 1200-character
truncation bound. -/
def longRaw : String := String.mk (List.replicate 1300 'x')

/-- Environment and oracles reaching a token-exchange transport failure
whose body is `longRaw`. -/
def envC7 : Env := ⟨some "http://u", some "id", some "secret", none⟩

/-- Probe oracle for the C7 scenario. -/
def fetchC7 : String → Option (Option String) := fun _ => some (some "PHPSESSID=abc")

/-- Token oracle answering 500 with the 1300-character body. -/
def tokC7 : String → HttpResponse := fun _ => ⟨500, longRaw, none⟩

/-- C7 (counterexample): a token-exchange transport failure propagates
its raw upstream body through `authCycle` to the auth route's response
untruncated — the surfaced failure carries 1300 characters of raw
upstream content, exceeding the claimed 1200-character bound. -/
theorem claim_C7_cex :
    authRoute (authCycle envC7 fetchC7 tokC7).1 =
      ⟨500, .obj [("ok", .bool false), ("status", .num 500),
        ("error", .str "Token failed"), ("raw", .str longRaw)]⟩ ∧
    1200 < longRaw.length := by
  refine ⟨rfl, ?_⟩
  have h : longRaw.length = 1300 := by
    rw [longRaw, String.length]
    exact List.length_replicate 1300 'x'
  omega

/-- C7 (amended): the raw upstream body text included in the business
routes' transport-failure responses is truncated to at most 1200
characters (`text.slice(0, 1200)`); failures propagated from the token
exchange, in contrast, carry the raw upstream content untruncated. -/
theorem claim_C7 (r : HttpResponse)
    (herr : truthy (optGet r.payload "erro") = false) (hok : r.ok = false) :
    (clienteRespond r).body =
      .obj [("error", .str ("Gesprov error " ++ toString r.status)),
        ("raw", .str (sliceTo r.text 1200))] ∧
    (r.payload = none → (faturasRespond r).body =
      .obj [("error", .str "Erro ao buscar faturas no Gesprov."),
        ("details", .obj [("raw", .str (sliceTo r.text 1200))])]) ∧
    (sliceTo r.text 1200).length ≤ 1200 := by
  refine ⟨?_, ?_, sliceTo_length_le r.text 1200⟩
  · simp [clienteRespond, herr, hok]
  · intro hp; simp [faturasRespond, hok, hp, optGet, truthy]

/-- A 500 upstream response with an unparsable body. -/
def respC7w : HttpResponse := ⟨500, "oops", none⟩

/-- C7 witness: on a concrete 500 upstream response, both business
routes embed the sliced raw text and the slice is within the bound. -/
theorem claim_C7_witness :
    truthy (optGet respC7w.payload "erro") = false ∧ respC7w.ok = false ∧
      ((clienteRespond respC7w).body =
        .obj [("error", .str "Gesprov error 500"), ("raw", .str "oops")] ∧
      (respC7w.payload = none → (faturasRespond respC7w).body =
        .obj [("error", .str "Erro ao buscar faturas no Gesprov."),
          ("details", .obj [("raw", .str "oops")])]) ∧
      (sliceTo respC7w.text 1200).length ≤ 1200) :=
  ⟨rfl, rfl, claim_C7 respC7w rfl rfl⟩

/-- A failing `getToken` result never carries status 0 when the upstream
transport status is non-zero: its status is the transport status, 401 or
502. -/
lemma getToken_failure_status {r : HttpResponse} (h0 : r.status ≠ 0)
    {st : Nat} {raw : Raw} (h : getToken r = .failure st raw) : st ≠ 0 := by
  simp only [getToken] at h
  split at h
  · exact (TokenResult.failure.injEq _ _ _ _).mp h |>.1 ▸ h0
  · split at h
    · have := (TokenResult.failure.injEq _ _ _ _).mp h |>.1
      omega
    · split at h
      · have := (TokenResult.failure.injEq _ _ _ _).mp h |>.1
        omega
      · exact absurd h (by simp)

/-- A failing `authCycle` result never carries status 0 when the token
endpoint's transport status is non-zero: its status is 500, 502 or a
`getToken` failure status. -/
lemma authCycle_failure_status (env : Env) (fetch : String → Option (Option String))
    (tokenResp : String → HttpResponse)
    (hstat : ∀ ck, (tokenResp ck).status ≠ 0)
    {st : Nat} {err : String} {raw : Option Raw}
    (h : (authCycle env fetch tokenResp).1 = .failure st err raw) : st ≠ 0 := by
  simp only [authCycle] at h
  split at h
  · injection h with h1 h2 h3; omega
  split at h
  · injection h with h1 h2 h3; omega
  split at h
  · injection h with h1 h2 h3; omega
  split at h
  · injection h with h1 h2 h3; omega
  split at h
  · rename_i st0 raw0 ht
    injection h with h1 h2 h3
    have := getToken_failure_status (hstat _) ht
    omega
  · injection h

/-- C8: the `POST /gesprov/auth` route answers a successful auth cycle
with status 200 and the body `{ok, cookie, token, token_type}`, and a
failed cycle with the cycle's failure shape `{ok:false, status, error,
raw?}` at the failure's own status (assuming the token endpoint never
reports transport status 0, so `auth.status || 500` is `auth.status`). -/
theorem claim_C8 (env : Env) (fetch : String → Option (Option String))
    (tokenResp : String → HttpResponse)
    (hstat : ∀ ck, (tokenResp ck).status ≠ 0) :
    (∀ ck t tt, (authCycle env fetch tokenResp).1 = .success ck t tt →
      authRoute (authCycle env fetch tokenResp).1 =
        ⟨200, .obj [("ok", .bool true), ("cookie", .str ck),
          ("token", t), ("token_type", tt)]⟩) ∧
    (∀ st err raw, (authCycle env fetch tokenResp).1 = .failure st err raw →
      authRoute (authCycle env fetch tokenResp).1 = ⟨st, authFailureJs st err raw⟩) := by
  constructor
  · intro ck t tt h
    rw [h]
    rfl
  · intro st err raw h
    have hne := authCycle_failure_status env fetch tokenResp hstat h
    rw [h]
    simp [authRoute, jsOrNat, hne]

/-- Environment with no base URL, driving the auth route to a failure. -/
def envC8w : Env := ⟨none, none, none, none⟩

/-- Probe oracle for the C8 witness (all probes throw). -/
def fetchC8w : String → Option (Option String) := fun _ => none

/-- Token oracle for the C8 witness (never consulted). -/
def tokC8w : String → HttpResponse := fun _ => ⟨200, "", none⟩

/-- C8 witness: on a concrete failed cycle (missing configuration), the
auth route answers the failure shape at the failure's status 500. -/
theorem claim_C8_witness :
    (authCycle envC8w fetchC8w tokC8w).1 = .failure 500 "GESPROV_URL not set" none ∧
      authRoute (authCycle envC8w fetchC8w tokC8w).1 =
        ⟨500, .obj [("ok", .bool false), ("status", .num 500),
          ("error", .str "GESPROV_URL not set")]⟩ :=
  ⟨rfl, (claim_C8 envC8w fetchC8w tokC8w
    (fun _ => Nat.succ_ne_zero 199)).2 500 "GESPROV_URL not set" none rfl⟩

end Gesprov
